import Mathlib

/-!
Verification of the fitness-tracker calculation model (`src/main.go`).

Modelling conventions:
* Go `float64` arithmetic is embedded as exact rational arithmetic (`ℚ`);
  every numeric literal of the source (0.65, 1.79, 0.278, …) is an exact
  rational, so all the formulas translate literally.
* Go `time.Duration` is an `Int` count of nanoseconds; `Duration.Hours()`
  and `Duration.Minutes()` divide by the nanosecond counts of an hour and
  of a minute.
* The single place where the source can divide a float by zero —
  `Swimming.meanSpeed`, which has no zero-duration guard — returns
  `Option ℚ`: `none` stands for the non-finite `float64` value (`+Inf`,
  `NaN`) that Go produces there, `some q` for the finite quotient.
  Correspondingly the `Speed` field of `InfoMessage` is an `Option ℚ`;
  the guarded base computation always stores `some _`.
-/

/-! ### Shared constants (`const` block at the top of `main.go`) -/

def MInKm : ℚ := 1000
def MinInHours : ℚ := 60
def LenStep : ℚ := 0.65
def CmInM : ℚ := 100

/-! ### `time.Duration` (nanoseconds) -/

/-- `d.Hours()` for a Go `time.Duration` of `d` nanoseconds. -/
def durHours (d : ℤ) : ℚ := (d : ℚ) / 3600000000000

/-- `d.Minutes()` for a Go `time.Duration` of `d` nanoseconds. -/
def durMinutes (d : ℤ) : ℚ := (d : ℚ) / 60000000000

/-! ### `Training`: the shared base structure -/

structure Training where
  TrainingType : String
  Action : ℤ
  LenStep : ℚ
  Duration : ℤ
  Weight : ℚ
deriving DecidableEq

/-- `func (t Training) distance() float64`. -/
def Training.distance (t : Training) : ℚ :=
  (t.Action : ℚ) * t.LenStep / MInKm

/-- `func (t Training) meanSpeed() float64` (guards a zero duration). -/
def Training.meanSpeed (t : Training) : ℚ :=
  if durHours t.Duration = 0 then 0
  else t.distance / durHours t.Duration

/-- `func (t Training) Calories() float64`: the base implementation. -/
def Training.Calories (_ : Training) : ℚ := 0

/-- `InfoMessage`.  `Speed` is `Option ℚ` because `Swimming.TrainingInfo`
stores the unguarded swimming speed, which is non-finite (`none`) at a
zero duration. -/
structure InfoMessage where
  TrainingType : String
  Duration : ℤ
  Distance : ℚ
  Speed : Option ℚ
  Calories : ℚ
deriving DecidableEq

/-- `func (t Training) TrainingInfo() InfoMessage`. -/
def Training.TrainingInfo (t : Training) : InfoMessage :=
  { TrainingType := t.TrainingType
    Duration := t.Duration
    Distance := t.distance
    Speed := some t.meanSpeed
    Calories := t.Calories }

/-! ### Rendering (`fmt.Sprintf` verbs `%.0f` / `%.2f`) -/

/-- The ASCII digit character for `d < 10`. -/
def digitChar (d : ℕ) : Char := Char.ofNat (48 + d)

/-- The lowest `prec` decimal digits of `n`, most significant first,
padded with leading zeros to exactly `prec` characters. -/
def natDigitsPadded : ℕ → ℕ → List Char
  | 0, _ => []
  | p + 1, n => natDigitsPadded p (n / 10) ++ [digitChar (n % 10)]

/-- Decimal digit characters of `n`, no padding (as Go prints integers). -/
def natChars (n : ℕ) : List Char :=
  if _h : n < 10 then [digitChar n]
  else natChars (n / 10) ++ [digitChar (n % 10)]
termination_by n
decreasing_by exact Nat.div_lt_self (by omega) (by omega)

/-- The verb `%.⟨prec⟩f` applied to a finite value `q`: round to `prec`
decimal places and print with exactly `prec` digits after the point
(no point at all when `prec = 0`). -/
def formatFixed (prec : ℕ) (q : ℚ) : String :=
  (if round (q * (10 : ℚ) ^ prec) < 0 then "-" else "") ++
    String.mk (natChars ((round (q * (10 : ℚ) ^ prec)).natAbs / 10 ^ prec)) ++
    (if prec = 0 then "" else
      String.mk ('.' :: natDigitsPadded prec ((round (q * (10 : ℚ) ^ prec)).natAbs % 10 ^ prec)))

/-- `%.2f` applied to the possibly non-finite `Speed` field: Go prints
`+Inf` for a positive-infinite float. -/
def formatSpeed : Option ℚ → String
  | none => "+Inf"
  | some q => formatFixed 2 q

/-- `func (i InfoMessage) String() string`. -/
def InfoMessage.String (i : InfoMessage) : String :=
  "Тип тренировки: " ++ i.TrainingType ++
    "\nДлительность: " ++ formatFixed 0 (durMinutes i.Duration) ++
    " мин\nДистанция: " ++ formatFixed 2 i.Distance ++
    " км\nСр. скорость: " ++ formatSpeed i.Speed ++
    " км/ч\nПотрачено ккал: " ++ formatFixed 2 i.Calories ++ "\n"

/-! ### `Running` -/

def CaloriesMeanSpeedMultiplier : ℚ := 18.0
def CaloriesMeanSpeedShift : ℚ := 1.79

structure Running extends Training
deriving DecidableEq

/-- `func (r Running) Calories() float64`. -/
def Running.Calories (r : Running) : ℚ :=
  ((CaloriesMeanSpeedMultiplier * r.toTraining.meanSpeed + CaloriesMeanSpeedShift)
      * r.toTraining.Weight / MInKm)
    * durHours r.toTraining.Duration * MinInHours

/-- `func (r Running) TrainingInfo() InfoMessage`. -/
def Running.TrainingInfo (r : Running) : InfoMessage :=
  { r.toTraining.TrainingInfo with Calories := r.Calories }

/-! ### `Walking` -/

def CaloriesWeightMultiplier : ℚ := 0.035
def CaloriesSpeedHeightMultiplier : ℚ := 0.029
def KmHInMsec : ℚ := 0.278

structure Walking extends Training where
  Height : ℚ
deriving DecidableEq

/-- `func (w Walking) Calories() float64`. -/
def Walking.Calories (w : Walking) : ℚ :=
  let heightInM := w.Height / CmInM
  let speedInMsec := w.toTraining.meanSpeed * KmHInMsec
  (CaloriesWeightMultiplier * w.toTraining.Weight +
      (speedInMsec ^ 2 / heightInM) * CaloriesSpeedHeightMultiplier * w.toTraining.Weight)
    * durHours w.toTraining.Duration * MinInHours

/-- `func (w Walking) TrainingInfo() InfoMessage`. -/
def Walking.TrainingInfo (w : Walking) : InfoMessage :=
  { w.toTraining.TrainingInfo with Calories := w.Calories }

/-! ### `Swimming` -/

def SwimmingLenStep : ℚ := 1.38
def SwimmingCaloriesMeanSpeedShift : ℚ := 1.1
def SwimmingCaloriesWeightMultiplier : ℚ := 2.0

structure Swimming extends Training where
  LengthPool : ℤ
  CountPool : ℤ
deriving DecidableEq

/-- The quotient computed by `func (s Swimming) meanSpeed() float64`,
as an exact rational (meaningful only when the duration is non-zero). -/
def Swimming.meanSpeedRaw (s : Swimming) : ℚ :=
  ((s.LengthPool * s.CountPool : ℤ) : ℚ) / MInKm / durHours s.toTraining.Duration

/-- `func (s Swimming) meanSpeed() float64`.  The source has NO guard: at a
zero duration the float division yields a non-finite value, modelled as
`none`; otherwise the finite quotient `some (meanSpeedRaw s)`. -/
def Swimming.meanSpeed (s : Swimming) : Option ℚ :=
  if s.toTraining.Duration = 0 then none else some s.meanSpeedRaw

/-- `func (s Swimming) Calories() float64` (guard `s.Duration == 0`;
in the other branch `s.meanSpeed()` is the finite `meanSpeedRaw s`). -/
def Swimming.Calories (s : Swimming) : ℚ :=
  if s.toTraining.Duration = 0 then 0
  else (s.meanSpeedRaw + SwimmingCaloriesMeanSpeedShift)
    * SwimmingCaloriesWeightMultiplier * s.toTraining.Weight * durHours s.toTraining.Duration

/-- `func (s Swimming) TrainingInfo() InfoMessage` (built field by field,
with the overridden `meanSpeed`). -/
def Swimming.TrainingInfo (s : Swimming) : InfoMessage :=
  { TrainingType := s.toTraining.TrainingType
    Duration := s.toTraining.Duration
    Distance := s.toTraining.distance
    Speed := s.meanSpeed
    Calories := s.Calories }

/-! ### Dispatch and orchestration (`CaloriesCalculator`, `ReadData`, `main`) -/

class CaloriesCalculator (α : Type) where
  Calories : α → ℚ
  TrainingInfo : α → InfoMessage

instance : CaloriesCalculator Running := ⟨Running.Calories, Running.TrainingInfo⟩
instance : CaloriesCalculator Walking := ⟨Walking.Calories, Walking.TrainingInfo⟩
instance : CaloriesCalculator Swimming := ⟨Swimming.Calories, Swimming.TrainingInfo⟩

/-- `func ReadData(training CaloriesCalculator) string`. -/
def ReadData {α : Type} [CaloriesCalculator α] (t : α) : String :=
  (CaloriesCalculator.TrainingInfo t).String

/-- The `swimming` sample of `main` (duration 90 min = 5.4e12 ns). -/
def swimming : Swimming :=
  { TrainingType := "Плавание"
    Action := 2000
    LenStep := SwimmingLenStep
    Duration := 5400000000000
    Weight := 85
    LengthPool := 50
    CountPool := 5 }

/-- The `walking` sample of `main` (duration 3 h 45 min = 1.35e13 ns). -/
def walking : Walking :=
  { TrainingType := "Ходьба"
    Action := 20000
    LenStep := LenStep
    Duration := 13500000000000
    Weight := 85
    Height := 185 }

/-- The `running` sample of `main` (duration 30 min = 1.8e12 ns). -/
def running : Running :=
  { TrainingType := "Бег"
    Action := 5000
    LenStep := LenStep
    Duration := 1800000000000
    Weight := 85 }

/-- The complete standard output of `main`: three `fmt.Println(ReadData(…))`
calls, each appending a final newline to the printed string. -/
def mainOutput : String :=
  ReadData swimming ++ "\n" ++ ReadData walking ++ "\n" ++ ReadData running ++ "\n"

/-- A rendered number has exactly two decimal places: a single point,
exactly two characters after it, none of them a second point. -/
def twoDecimals (s : String) : Prop :=
  ∃ a b, s.data = a ++ '.' :: b ∧ b.length = 2 ∧ '.' ∉ a ∧ '.' ∉ b

/-- A rendered number contains no decimal point at all. -/
def noDot (s : String) : Prop := '.' ∉ s.data

/-! ### Helper lemmas about the rendering -/

theorem data_mk (l : List Char) : (String.mk l).data = l := rfl

theorem data_empty : ("" : String).data = [] := rfl

theorem data_dash : ("-" : String).data = ['-'] := rfl

theorem digitChar_lt_ne_dot : ∀ d, d < 10 → digitChar d ≠ '.' := by decide

theorem natDigitsPadded_length (p n : ℕ) : (natDigitsPadded p n).length = p := by
  induction p generalizing n with
  | zero => rfl
  | succ p ih => simp [natDigitsPadded, ih]

theorem mem_natDigitsPadded_ne_dot (p : ℕ) :
    ∀ n, ∀ c ∈ natDigitsPadded p n, c ≠ '.' := by
  induction p with
  | zero =>
    intro n c hc
    simp [natDigitsPadded] at hc
  | succ p ih =>
    intro n c hc
    simp only [natDigitsPadded, List.mem_append, List.mem_singleton] at hc
    rcases hc with h | h
    · exact ih _ c h
    · subst h
      exact digitChar_lt_ne_dot _ (Nat.mod_lt _ (by omega))

theorem mem_natChars_ne_dot (n : ℕ) : ∀ c ∈ natChars n, c ≠ '.' := by
  induction n using Nat.strong_induction_on with
  | _ n ih =>
    intro c hc
    unfold natChars at hc
    split at hc
    · rw [List.mem_singleton] at hc
      subst hc
      exact digitChar_lt_ne_dot _ (by omega)
    · rw [List.mem_append, List.mem_singleton] at hc
      rcases hc with h | h
      · exact ih (n / 10) (Nat.div_lt_self (by omega) (by omega)) c h
      · subst h
        exact digitChar_lt_ne_dot _ (Nat.mod_lt _ (by omega))

theorem noDot_formatFixed_zero (q : ℚ) : noDot (formatFixed 0 q) := by
  intro hmem
  unfold formatFixed at hmem
  rw [if_pos rfl] at hmem
  rw [String.data_append, String.data_append, data_empty, data_mk,
    List.append_nil, List.mem_append] at hmem
  rcases hmem with h | h
  · split at h
    · rw [data_dash, List.mem_singleton] at h
      exact absurd h (by decide)
    · rw [data_empty] at h
      exact absurd h (List.not_mem_nil _)
  · exact mem_natChars_ne_dot _ _ h rfl

theorem twoDecimals_formatFixed_two (q : ℚ) : twoDecimals (formatFixed 2 q) := by
  refine ⟨(if round (q * (10 : ℚ) ^ (2 : ℕ)) < 0 then "-" else "").data ++
      natChars ((round (q * (10 : ℚ) ^ (2 : ℕ))).natAbs / 10 ^ (2 : ℕ)),
    natDigitsPadded 2 ((round (q * (10 : ℚ) ^ (2 : ℕ))).natAbs % 10 ^ (2 : ℕ)),
    ?_, natDigitsPadded_length 2 _, ?_, ?_⟩
  · unfold formatFixed
    rw [if_neg (by omega : ¬ (2 : ℕ) = 0)]
    rw [String.data_append, String.data_append, data_mk, data_mk, List.append_assoc]
  · intro hc
    rcases List.mem_append.mp hc with h | h
    · split at h
      · rw [data_dash, List.mem_singleton] at h
        exact absurd h (by decide)
      · rw [data_empty] at h
        exact List.not_mem_nil _ h
    · exact mem_natChars_ne_dot _ _ h rfl
  · intro hc
    exact mem_natDigitsPadded_ne_dot 2 _ _ hc rfl

theorem natChars_small {n : ℕ} (h : n < 10) : natChars n = [digitChar n] := by
  rw [natChars]
  exact dif_pos h

theorem natChars_large {n : ℕ} (h : 10 ≤ n) :
    natChars n = natChars (n / 10) ++ [digitChar (n % 10)] := by
  rw [natChars]
  exact dif_neg (by omega)

/-! ### Helper evaluations at the three sample sessions -/

theorem running_distance_eq : running.toTraining.distance = 3.25 := by
  norm_num [running, Training.distance, MInKm, LenStep]

theorem running_meanSpeed_eq : running.toTraining.meanSpeed = 6.5 := by
  norm_num [running, Training.meanSpeed, Training.distance, durHours, MInKm, LenStep]

theorem running_calories_eq : Running.Calories running = 302.9145 := by
  norm_num [running, Running.Calories, Training.meanSpeed, Training.distance, durHours,
    MInKm, MinInHours, LenStep, CaloriesMeanSpeedMultiplier, CaloriesMeanSpeedShift]

/-! ### Claims -/

/-- C1 (code bug): the spec requires the overridden `Swimming.meanSpeed` to
return 0 at a zero duration, but the source omits the guard: at a swimming
session with the sample pool geometry and zero duration, the method divides
by a zero duration and yields a non-finite float (`none`), which in
particular is not the finite value 0 the claim demands. -/
theorem c1_swimming_meanSpeed_unguarded :
    (⟨⟨"Плавание", 2000, 1.38, 0, 85⟩, 50, 5⟩ : Swimming).toTraining.Duration = 0 ∧
    Swimming.meanSpeed ⟨⟨"Плавание", 2000, 1.38, 0, 85⟩, 50, 5⟩ = none ∧
    Swimming.meanSpeed ⟨⟨"Плавание", 2000, 1.38, 0, 85⟩, 50, 5⟩ ≠ some 0 := by
  decide

/-- C2 (counterexample): at the running sample of `main` the distance and
mean speed are as claimed, but `Calories` is exactly 302.9145 kcal, far
outside the claimed 585.18 ± 0.5%; the conjunction claimed is false. -/
theorem c2_calories_not_585 :
    ¬ (running.toTraining.distance = 3.25 ∧
       running.toTraining.meanSpeed = 6.5 ∧
       |Running.Calories running - 585.18| ≤ 585.18 * (5 / 1000)) := by
  intro h
  have h3 := h.2.2
  rw [running_calories_eq, abs_le] at h3
  have h4 := h3.1
  norm_num at h4

/-- C2 (amended): the running sample (weight 85 kg, 5000 repetitions,
step 0.65 m, 30 min) yields distance 3.25 km, mean speed 6.5 km/h and
exactly 302.9145 kcal. -/
theorem c2_running_sample_values :
    running.toTraining.distance = 3.25 ∧
    running.toTraining.meanSpeed = 6.5 ∧
    Running.Calories running = 302.9145 :=
  ⟨running_distance_eq, running_meanSpeed_eq, running_calories_eq⟩

/-- C3: for every Running and every Walking session the shared base
`meanSpeed` equals `distance` divided by the duration in hours when that
duration is positive, and 0 when it is zero. -/
theorem c3_base_meanSpeed (r : Running) (w : Walking) :
    (0 < durHours r.toTraining.Duration →
      r.toTraining.meanSpeed = r.toTraining.distance / durHours r.toTraining.Duration) ∧
    (durHours r.toTraining.Duration = 0 → r.toTraining.meanSpeed = 0) ∧
    (0 < durHours w.toTraining.Duration →
      w.toTraining.meanSpeed = w.toTraining.distance / durHours w.toTraining.Duration) ∧
    (durHours w.toTraining.Duration = 0 → w.toTraining.meanSpeed = 0) := by
  unfold Training.meanSpeed
  exact ⟨fun h => if_neg h.ne', fun h => if_pos h, fun h => if_neg h.ne', fun h => if_pos h⟩

theorem c3_base_meanSpeed_witness :
    Training.meanSpeed ⟨"Бег", 5000, 0.65, 1800000000000, 85⟩ =
      Training.distance ⟨"Бег", 5000, 0.65, 1800000000000, 85⟩ / durHours 1800000000000 ∧
    Training.meanSpeed ⟨"Ходьба", 20000, 0.65, 0, 85⟩ = 0 :=
  ⟨(c3_base_meanSpeed ⟨⟨"Бег", 5000, 0.65, 1800000000000, 85⟩⟩
      ⟨⟨"Ходьба", 20000, 0.65, 0, 85⟩, 185⟩).1 (by norm_num [durHours]),
   (c3_base_meanSpeed ⟨⟨"Бег", 5000, 0.65, 1800000000000, 85⟩⟩
      ⟨⟨"Ходьба", 20000, 0.65, 0, 85⟩, 185⟩).2.2.2 (by norm_num [durHours])⟩

/-- C4: every variant's reported distance is the base repetition formula
`Action * LenStep / 1000`; in particular Swimming's reported distance is
independent of `LengthPool` and `CountPool`. -/
theorem c4_distance_base_formula :
    (∀ t : Training, t.distance = (t.Action : ℚ) * t.LenStep / 1000) ∧
    (∀ r : Running,
      (Running.TrainingInfo r).Distance = (r.toTraining.Action : ℚ) * r.toTraining.LenStep / 1000) ∧
    (∀ w : Walking,
      (Walking.TrainingInfo w).Distance = (w.toTraining.Action : ℚ) * w.toTraining.LenStep / 1000) ∧
    (∀ s : Swimming,
      (Swimming.TrainingInfo s).Distance = (s.toTraining.Action : ℚ) * s.toTraining.LenStep / 1000) ∧
    (∀ s : Swimming, ∀ L N : ℤ,
      (Swimming.TrainingInfo { s with LengthPool := L, CountPool := N }).Distance =
        (Swimming.TrainingInfo s).Distance) :=
  ⟨fun _ => rfl, fun _ => rfl, fun _ => rfl, fun _ => rfl, fun _ _ _ => rfl⟩

/-- C5: for every Running session, `Calories` equals
`(18.0 * meanSpeed + 1.79) * Weight / 1000 * durationHours * 60`. -/
theorem c5_running_calories (r : Running) :
    Running.Calories r =
      (18.0 * r.toTraining.meanSpeed + 1.79) * r.toTraining.Weight / 1000 *
        durHours r.toTraining.Duration * 60 := by
  unfold Running.Calories CaloriesMeanSpeedMultiplier CaloriesMeanSpeedShift MInKm MinInHours
  ring

/-- C6: for every Walking session, `Calories` equals
`(0.035 * Weight + ((meanSpeed * 0.278)^2 / (Height / 100)) * 0.029 * Weight)
  * durationHours * 60`, the speed in m/s being recomputed from the shared
base `meanSpeed`. -/
theorem c6_walking_calories (w : Walking) :
    Walking.Calories w =
      (0.035 * w.toTraining.Weight +
        ((w.toTraining.meanSpeed * 0.278) ^ 2 / (w.Height / 100)) * 0.029 * w.toTraining.Weight)
        * durHours w.toTraining.Duration * 60 := by
  unfold Walking.Calories CaloriesWeightMultiplier CaloriesSpeedHeightMultiplier KmHInMsec CmInM MinInHours
  ring

/-- C7: Swimming calories: at a zero duration its own guard returns 0 even
though the (unguarded) overridden mean speed is non-finite there; at a
positive duration it is `(meanSpeed + 1.1) * 2.0 * Weight * durationHours`
with the finite overridden mean speed. -/
theorem c7_swimming_calories (s : Swimming) :
    (s.toTraining.Duration = 0 →
      Swimming.Calories s = 0 ∧ Swimming.meanSpeed s = none) ∧
    (0 < durHours s.toTraining.Duration →
      Swimming.meanSpeed s = some s.meanSpeedRaw ∧
      Swimming.Calories s =
        (s.meanSpeedRaw + 1.1) * 2.0 * s.toTraining.Weight * durHours s.toTraining.Duration) := by
  constructor
  · intro h
    constructor
    · unfold Swimming.Calories
      rw [if_pos h]
    · unfold Swimming.meanSpeed
      rw [if_pos h]
  · intro h
    have hd : ¬ s.toTraining.Duration = 0 := by
      intro h0
      rw [h0] at h
      norm_num [durHours] at h
    unfold Swimming.meanSpeed Swimming.Calories
    rw [if_neg hd, if_neg hd]
    refine ⟨rfl, ?_⟩
    unfold SwimmingCaloriesMeanSpeedShift SwimmingCaloriesWeightMultiplier
    ring

theorem c7_swimming_calories_witness :
    (Swimming.Calories ⟨⟨"Плавание", 2000, 1.38, 0, 85⟩, 50, 5⟩ = 0 ∧
     Swimming.meanSpeed ⟨⟨"Плавание", 2000, 1.38, 0, 85⟩, 50, 5⟩ = none) ∧
    (Swimming.meanSpeed swimming = some swimming.meanSpeedRaw ∧
     Swimming.Calories swimming =
       (swimming.meanSpeedRaw + 1.1) * 2.0 * swimming.toTraining.Weight *
         durHours swimming.toTraining.Duration) :=
  ⟨(c7_swimming_calories ⟨⟨"Плавание", 2000, 1.38, 0, 85⟩, 50, 5⟩).1 rfl,
   (c7_swimming_calories swimming).2 (by norm_num [swimming, durHours])⟩

/-- C8: the report renders, in this fixed order: type label, duration,
distance, average speed, calories; the duration with no decimal point
(whole minutes), and distance, speed and calories with exactly two
decimal places. -/
theorem c8_report_layout (i : InfoMessage) (v : ℚ) (hs : i.Speed = some v) :
    i.String =
      "Тип тренировки: " ++ i.TrainingType ++
        "\nДлительность: " ++ formatFixed 0 (durMinutes i.Duration) ++
        " мин\nДистанция: " ++ formatFixed 2 i.Distance ++
        " км\nСр. скорость: " ++ formatFixed 2 v ++
        " км/ч\nПотрачено ккал: " ++ formatFixed 2 i.Calories ++ "\n" ∧
    noDot (formatFixed 0 (durMinutes i.Duration)) ∧
    twoDecimals (formatFixed 2 i.Distance) ∧
    twoDecimals (formatFixed 2 v) ∧
    twoDecimals (formatFixed 2 i.Calories) := by
  refine ⟨?_, noDot_formatFixed_zero _, twoDecimals_formatFixed_two _,
    twoDecimals_formatFixed_two _, twoDecimals_formatFixed_two _⟩
  unfold InfoMessage.String
  rw [hs]
  rfl

theorem c8_report_layout_witness :
    InfoMessage.String ⟨"Бег", 1800000000000, 3.25, some 6.5, 302.9145⟩ =
      "Тип тренировки: " ++ "Бег" ++
        "\nДлительность: " ++ formatFixed 0 (durMinutes 1800000000000) ++
        " мин\nДистанция: " ++ formatFixed 2 3.25 ++
        " км\nСр. скорость: " ++ formatFixed 2 6.5 ++
        " км/ч\nПотрачено ккал: " ++ formatFixed 2 302.9145 ++ "\n" :=
  (c8_report_layout ⟨"Бег", 1800000000000, 3.25, some 6.5, 302.9145⟩ 6.5 rfl).1

/-! ### Rendering evaluations needed for the main output -/

theorem ff0_90 : formatFixed 0 (90 : ℚ) = "90" := by
  unfold formatFixed
  rw [show round ((90 : ℚ) * (10:ℚ)^(0:ℕ)) = 90 by
    rw [round_eq, Int.floor_eq_iff]
    norm_num]
  norm_num
  norm_num [natChars_small, natChars_large, natDigitsPadded]
  decide

theorem ff0_225 : formatFixed 0 (225 : ℚ) = "225" := by
  unfold formatFixed
  rw [show round ((225 : ℚ) * (10:ℚ)^(0:ℕ)) = 225 by
    rw [round_eq, Int.floor_eq_iff]
    norm_num]
  norm_num
  norm_num [natChars_small, natChars_large, natDigitsPadded]
  decide

theorem ff0_30 : formatFixed 0 (30 : ℚ) = "30" := by
  unfold formatFixed
  rw [show round ((30 : ℚ) * (10:ℚ)^(0:ℕ)) = 30 by
    rw [round_eq, Int.floor_eq_iff]
    norm_num]
  norm_num
  norm_num [natChars_small, natChars_large, natDigitsPadded]
  decide

theorem ff2_swim_dist : formatFixed 2 (69/25 : ℚ) = "2.76" := by
  unfold formatFixed
  rw [show round ((69/25 : ℚ) * (10:ℚ)^(2:ℕ)) = 276 by
    rw [round_eq, Int.floor_eq_iff]
    norm_num]
  norm_num
  norm_num [natChars_small, natChars_large, natDigitsPadded]
  decide

theorem ff2_swim_speed : formatFixed 2 (1/6 : ℚ) = "0.17" := by
  unfold formatFixed
  rw [show round ((1/6 : ℚ) * (10:ℚ)^(2:ℕ)) = 17 by
    rw [round_eq, Int.floor_eq_iff]
    norm_num]
  norm_num
  norm_num [natChars_small, natChars_large, natDigitsPadded]
  decide

theorem ff2_swim_cal : formatFixed 2 (323 : ℚ) = "323.00" := by
  unfold formatFixed
  rw [show round ((323 : ℚ) * (10:ℚ)^(2:ℕ)) = 32300 by
    rw [round_eq, Int.floor_eq_iff]
    norm_num]
  norm_num
  norm_num [natChars_small, natChars_large, natDigitsPadded]
  decide

theorem ff2_walk_dist : formatFixed 2 (13 : ℚ) = "13.00" := by
  unfold formatFixed
  rw [show round ((13 : ℚ) * (10:ℚ)^(2:ℕ)) = 1300 by
    rw [round_eq, Int.floor_eq_iff]
    norm_num]
  norm_num
  norm_num [natChars_small, natChars_large, natDigitsPadded]
  decide

theorem ff2_walk_speed : formatFixed 2 (52/15 : ℚ) = "3.47" := by
  unfold formatFixed
  rw [show round ((52/15 : ℚ) * (10:ℚ)^(2:ℕ)) = 347 by
    rw [round_eq, Int.floor_eq_iff]
    norm_num]
  norm_num
  norm_num [natChars_small, natChars_large, natDigitsPadded]
  decide

theorem ff2_walk_cal : formatFixed 2 (21918367903/23125000 : ℚ) = "947.82" := by
  unfold formatFixed
  rw [show round ((21918367903/23125000 : ℚ) * (10:ℚ)^(2:ℕ)) = 94782 by
    rw [round_eq, Int.floor_eq_iff]
    norm_num]
  norm_num
  norm_num [natChars_small, natChars_large, natDigitsPadded]
  decide

theorem ff2_run_dist : formatFixed 2 (13/4 : ℚ) = "3.25" := by
  unfold formatFixed
  rw [show round ((13/4 : ℚ) * (10:ℚ)^(2:ℕ)) = 325 by
    rw [round_eq, Int.floor_eq_iff]
    norm_num]
  norm_num
  norm_num [natChars_small, natChars_large, natDigitsPadded]
  decide

theorem ff2_run_speed : formatFixed 2 (13/2 : ℚ) = "6.50" := by
  unfold formatFixed
  rw [show round ((13/2 : ℚ) * (10:ℚ)^(2:ℕ)) = 650 by
    rw [round_eq, Int.floor_eq_iff]
    norm_num]
  norm_num
  norm_num [natChars_small, natChars_large, natDigitsPadded]
  decide

theorem ff2_run_cal : formatFixed 2 (605829/2000 : ℚ) = "302.91" := by
  unfold formatFixed
  rw [show round ((605829/2000 : ℚ) * (10:ℚ)^(2:ℕ)) = 30291 by
    rw [round_eq, Int.floor_eq_iff]
    norm_num]
  norm_num
  norm_num [natChars_small, natChars_large, natDigitsPadded]
  decide

theorem swimming_info_eq :
    Swimming.TrainingInfo swimming =
      { TrainingType := "Плавание", Duration := 5400000000000,
        Distance := 69/25, Speed := some (1/6), Calories := 323 } := by
  unfold Swimming.TrainingInfo swimming
  norm_num [InfoMessage.mk.injEq, Swimming.meanSpeed, Swimming.meanSpeedRaw, Swimming.Calories,
    Training.distance, durHours, MInKm, SwimmingLenStep,
    SwimmingCaloriesMeanSpeedShift, SwimmingCaloriesWeightMultiplier]

theorem walking_info_eq :
    Walking.TrainingInfo walking =
      { TrainingType := "Ходьба", Duration := 13500000000000,
        Distance := 13, Speed := some (52/15), Calories := 21918367903/23125000 } := by
  unfold Walking.TrainingInfo Walking.Calories walking Training.TrainingInfo
  norm_num [InfoMessage.mk.injEq, Training.Calories, Training.meanSpeed, Training.distance,
    durHours, MInKm, MinInHours, CmInM, LenStep, KmHInMsec,
    CaloriesWeightMultiplier, CaloriesSpeedHeightMultiplier]

theorem running_info_eq :
    Running.TrainingInfo running =
      { TrainingType := "Бег", Duration := 1800000000000,
        Distance := 13/4, Speed := some (13/2), Calories := 605829/2000 } := by
  unfold Running.TrainingInfo Running.Calories running Training.TrainingInfo
  norm_num [InfoMessage.mk.injEq, Training.Calories, Training.meanSpeed, Training.distance,
    durHours, MInKm, MinInHours, LenStep,
    CaloriesMeanSpeedMultiplier, CaloriesMeanSpeedShift]

theorem readData_swimming_eq :
    ReadData swimming =
      "Тип тренировки: Плавание\nДлительность: 90 мин\nДистанция: 2.76 км\nСр. скорость: 0.17 км/ч\nПотрачено ккал: 323.00\n" := by
  show (Swimming.TrainingInfo swimming).String = _
  rw [swimming_info_eq]
  simp only [InfoMessage.String, formatSpeed]
  rw [show durMinutes 5400000000000 = 90 by norm_num [durMinutes],
    ff0_90, ff2_swim_dist, ff2_swim_speed, ff2_swim_cal]
  rfl

theorem readData_walking_eq :
    ReadData walking =
      "Тип тренировки: Ходьба\nДлительность: 225 мин\nДистанция: 13.00 км\nСр. скорость: 3.47 км/ч\nПотрачено ккал: 947.82\n" := by
  show (Walking.TrainingInfo walking).String = _
  rw [walking_info_eq]
  simp only [InfoMessage.String, formatSpeed]
  rw [show durMinutes 13500000000000 = 225 by norm_num [durMinutes],
    ff0_225, ff2_walk_dist, ff2_walk_speed, ff2_walk_cal]
  rfl

theorem readData_running_eq :
    ReadData running =
      "Тип тренировки: Бег\nДлительность: 30 мин\nДистанция: 3.25 км\nСр. скорость: 6.50 км/ч\nПотрачено ккал: 302.91\n" := by
  show (Running.TrainingInfo running).String = _
  rw [running_info_eq]
  simp only [InfoMessage.String, formatSpeed]
  rw [show durMinutes 1800000000000 = 30 by norm_num [durMinutes],
    ff0_30, ff2_run_dist, ff2_run_speed, ff2_run_cal]
  rfl

/-- C9: the program's standard output is exactly three newline-terminated
report blocks, one per sample session, in the order Swimming, Walking,
Running (each `Println` appends one extra newline to the block). -/
theorem c9_main_output :
    mainOutput =
      "Тип тренировки: Плавание\nДлительность: 90 мин\nДистанция: 2.76 км\nСр. скорость: 0.17 км/ч\nПотрачено ккал: 323.00\n" ++ "\n" ++
      "Тип тренировки: Ходьба\nДлительность: 225 мин\nДистанция: 13.00 км\nСр. скорость: 3.47 км/ч\nПотрачено ккал: 947.82\n" ++ "\n" ++
      "Тип тренировки: Бег\nДлительность: 30 мин\nДистанция: 3.25 км\nСр. скорость: 6.50 км/ч\nПотрачено ккал: 302.91\n" ++ "\n" ∧
    mainOutput = ReadData swimming ++ "\n" ++ ReadData walking ++ "\n" ++ ReadData running ++ "\n" := by
  refine ⟨?_, rfl⟩
  unfold mainOutput
  rw [readData_swimming_eq, readData_walking_eq, readData_running_eq]

/-- C10: for Running and Walking, `TrainingInfo` is the embedded base
record with only `Calories` replaced by the variant's own `Calories`;
type label, duration, distance and speed are the base computation's, and
the base `Calories` the record would otherwise carry is 0. -/
theorem c10_info_overrides_only_calories :
    (∀ r : Running, Running.TrainingInfo r =
        { Training.TrainingInfo r.toTraining with Calories := Running.Calories r } ∧
      (Running.TrainingInfo r).TrainingType = r.toTraining.TrainingType ∧
      (Running.TrainingInfo r).Duration = r.toTraining.Duration ∧
      (Running.TrainingInfo r).Distance = r.toTraining.distance ∧
      (Running.TrainingInfo r).Speed = some r.toTraining.meanSpeed ∧
      (Running.TrainingInfo r).Calories = Running.Calories r) ∧
    (∀ w : Walking, Walking.TrainingInfo w =
        { Training.TrainingInfo w.toTraining with Calories := Walking.Calories w } ∧
      (Walking.TrainingInfo w).TrainingType = w.toTraining.TrainingType ∧
      (Walking.TrainingInfo w).Duration = w.toTraining.Duration ∧
      (Walking.TrainingInfo w).Distance = w.toTraining.distance ∧
      (Walking.TrainingInfo w).Speed = some w.toTraining.meanSpeed ∧
      (Walking.TrainingInfo w).Calories = Walking.Calories w) ∧
    (∀ t : Training, Training.Calories t = 0 ∧ (Training.TrainingInfo t).Calories = 0) :=
  ⟨fun _ => ⟨rfl, rfl, rfl, rfl, rfl, rfl⟩,
   fun _ => ⟨rfl, rfl, rfl, rfl, rfl, rfl⟩,
   fun _ => ⟨rfl, rfl⟩⟩
